import Mathlib

/-!
Shallow embedding of the amd-variant-provider repository
(src/amd_variant_provider/detect_rocm.py and src/amd_variant_provider/plugin.py).

Python strings are modelled as Lean `String` / `List Char`; Python ints are
unbounded and modelled as `Int`; fallible Python code is modelled with
`Option` / `Except`.  External effects (file reads, subprocess runs,
environment variables) are modelled by an explicit `Env` record holding what
each probe would observe.  Each strategy that can spawn a subprocess also
returns a `Bool` recording whether it actually attempted the invocation.
-/

namespace AmdVariantProvider

/-! ### Python text primitives -/

/-- Whitespace as recognised by Python str.strip and the regex class \s
(ASCII part). -/
def isPyWs (c : Char) : Bool :=
  c = ' ' || c = '\t' || c = '\n' || c = '\r' || c = '\x0b' || c = '\x0c'

/-- Python str.strip on a list of characters. -/
def pyStripL (l : List Char) : List Char :=
  ((l.dropWhile isPyWs).reverse.dropWhile isPyWs).reverse

/-- Split on single-character delimiters, mirroring Python re.split (and
str.split with an explicit separator) with a one-character class: empty
pieces are kept. -/
def splitCharsAux (p : Char → Bool) : List Char → List Char → List (List Char)
  | [], acc => [acc.reverse]
  | c :: rest, acc =>
    if p c then acc.reverse :: splitCharsAux p rest []
    else splitCharsAux p rest (c :: acc)

/-- Split a character list on every delimiter character satisfying `p`. -/
def splitChars (p : Char → Bool) (l : List Char) : List (List Char) :=
  splitCharsAux p l []

/-- Numeric value of a run of decimal digits. -/
def digitsVal (l : List Char) : Nat :=
  l.foldl (fun a c => a * 10 + (c.toNat - ('0').toNat)) 0

/-- Python int(str): optional surrounding whitespace, optional sign, at least
one decimal digit.  (CPython additionally accepts underscore digit grouping;
that is not modelled.) -/
def parsePyIntL (l : List Char) : Option Int :=
  match pyStripL l with
  | '+' :: rest =>
    if !rest.isEmpty && rest.all Char.isDigit then some (Int.ofNat (digitsVal rest)) else none
  | '-' :: rest =>
    if !rest.isEmpty && rest.all Char.isDigit then some (-(Int.ofNat (digitsVal rest))) else none
  | rest =>
    if !rest.isEmpty && rest.all Char.isDigit then some (Int.ofNat (digitsVal rest)) else none

/-- Word characters of the regex class \w (ASCII part, matching the inputs the
probed tools actually produce). -/
def isWordChar (c : Char) : Bool := c.isAlphanum || c = '_'

/-- Maximal runs of word characters of a text.  A regex of the shape
\b(literal-and-classes)\b whose alphabet consists of word characters matches
exactly the maximal word runs that match it fully, so findall over such a
pattern reduces to filtering these tokens. -/
def wordTokens (l : List Char) : List (List Char) :=
  (splitChars (fun c => !isWordChar c) l).filter (fun t => !t.isEmpty)

/-- Python str.splitlines restricted to the line endings that occur in tool
output: newline, carriage return, and their combination. -/
def pySplitlinesAux : List Char → List Char → List (List Char)
  | [], acc => if acc.isEmpty then [] else [acc.reverse]
  | '\r' :: '\n' :: rest, acc => acc.reverse :: pySplitlinesAux rest []
  | '\n' :: rest, acc => acc.reverse :: pySplitlinesAux rest []
  | '\r' :: rest, acc => acc.reverse :: pySplitlinesAux rest []
  | c :: rest, acc => pySplitlinesAux rest (c :: acc)

/-- Python str.splitlines. -/
def pySplitlines (l : List Char) : List (List Char) :=
  pySplitlinesAux l []

/-- Strict lexicographic comparison of character lists by code point — the
comparison Python uses on strings. -/
def listCharLt : List Char → List Char → Bool
  | _, [] => false
  | [], _ :: _ => true
  | a :: as, b :: bs =>
    if a.toNat < b.toNat then true
    else if b.toNat < a.toNat then false
    else listCharLt as bs

/-- Strict lexicographic comparison of strings by code point. -/
def strLtB (a b : String) : Bool := listCharLt a.data b.data

/-- Insert a string into a sorted list. -/
def insertStr (x : String) : List String → List String
  | [] => [x]
  | y :: ys => if strLtB x y then x :: y :: ys else y :: insertStr x ys

/-- Insertion sort over strings. -/
def insertionSortStr : List String → List String
  | [] => []
  | x :: xs => insertStr x (insertionSortStr xs)

/-- Drop duplicate strings, keeping first occurrences. -/
def dedupAux : List String → List String → List String
  | [], _ => []
  | x :: xs, seen =>
    if x ∈ seen then dedupAux xs seen else x :: dedupAux xs (x :: seen)

/-- Python sorted(set(v)) for a list of strings: the distinct elements in
increasing lexicographic order. -/
def sortedDedup (l : List String) : List String :=
  insertionSortStr (dedupAux l [])

/-- Drop a literal character sequence, returning the remainder on success. -/
def dropLit : List Char → List Char → Option (List Char)
  | [], l => some l
  | _ :: _, [] => none
  | p :: ps, c :: cs => if c = p then dropLit ps cs else none

/-- Drop a literal character sequence case-insensitively; the pattern is given
in lowercase. -/
def dropLitCI : List Char → List Char → Option (List Char)
  | [], l => some l
  | _ :: _, [] => none
  | p :: ps, c :: cs => if c.toLower = p then dropLitCI ps cs else none

/-- Maximal run of decimal digits plus the remainder (the behaviour of a
greedy \d+ followed by a non-digit literal). -/
def takeDigits : List Char → List Char × List Char
  | [] => ([], [])
  | c :: rest =>
    if c.isDigit then
      let r := takeDigits rest
      (c :: r.1, r.2)
    else ([], c :: rest)

/-! ### The regexes of detect_rocm.py -/

/-- Literal part of _KMD_VERSION_REGEX_IN_ROCMINFO. -/
def kmdLit : List Char := ("ROCk module version ").data

/-- Match of (\d+)\.(\d+)\.(\d+) anchored at the current position. -/
def matchVersionTriple (l : List Char) : Option (Int × Int × Int) :=
  let r1 := takeDigits l
  if r1.1 = [] then none else
    match r1.2 with
    | '.' :: t2 =>
      let r2 := takeDigits t2
      if r2.1 = [] then none else
        match r2.2 with
        | '.' :: t3 =>
          let r3 := takeDigits t3
          if r3.1 = [] then none
          else some (Int.ofNat (digitsVal r1.1), Int.ofNat (digitsVal r2.1),
            Int.ofNat (digitsVal r3.1))
        | _ => none
    | _ => none

/-- Search of _KMD_VERSION_REGEX_IN_ROCMINFO, the pattern
"ROCk module version (\d+)\.(\d+)\.(\d+)": first position where the literal is
followed by a dotted numeric triple. -/
def kmdSearch : List Char → Option (Int × Int × Int)
  | [] => none
  | c :: rest =>
    match dropLit kmdLit (c :: rest) with
    | some r =>
      (match matchVersionTriple r with
       | some v => some v
       | none => kmdSearch rest)
    | none => kmdSearch rest

/-- Tail of _ROCM_VERSION_REGEX after the label: [:\s]*(\d+)\.(\d+) with an
ignored optional (?:\.\d+)? patch component. -/
def matchVerTailTwo (l : List Char) : Option (Int × Int) :=
  let afterSep := l.dropWhile (fun c => c = ':' || isPyWs c)
  let r1 := takeDigits afterSep
  if r1.1 = [] then none else
    match r1.2 with
    | '.' :: t2 =>
      let r2 := takeDigits t2
      if r2.1 = [] then none
      else some (Int.ofNat (digitsVal r1.1), Int.ofNat (digitsVal r2.1))
    | _ => none

/-- Maximal run of \s characters plus the remainder. -/
def takeWs : List Char → List Char × List Char
  | [] => ([], [])
  | c :: rest =>
    if isPyWs c then
      let r := takeWs rest
      (c :: r.1, r.2)
    else ([], c :: rest)

/-- Match of _ROCM_VERSION_REGEX at the current position:
ROCm(?:\s+Version)?[:\s]*(\d+)\.(\d+)(?:\.\d+)? with re.IGNORECASE.  The
regex engine prefers consuming the optional "\s+Version" group and backtracks
to omitting it, which the two ordered attempts reproduce. -/
def matchRocmAt (l : List Char) : Option (Int × Int) :=
  match dropLitCI ("rocm").data l with
  | none => none
  | some r =>
    let withVersion : Option (Int × Int) :=
      (let ws := takeWs r
       if ws.1 = [] then none
       else
         match dropLitCI ("version").data ws.2 with
         | some r2 => matchVerTailTwo r2
         | none => none)
    match withVersion with
    | some v => some v
    | none => matchVerTailTwo r

/-- Search of _ROCM_VERSION_REGEX over a whole text. -/
def rocmVersionSearch : List Char → Option (Int × Int)
  | [] => none
  | c :: rest =>
    match matchRocmAt (c :: rest) with
    | some v => some v
    | none => rocmVersionSearch rest

/-- One character class of _GFX_REGEX: [0-9a-f]. -/
def isLowerHex (c : Char) : Bool := c.isDigit || decide ('a' ≤ c ∧ c ≤ 'f')

/-- Full-token match of _GFX_REGEX, the pattern \b(gfx\d+[0-9a-f]*)\b: literal
"gfx", one or more digits, then lowercase hex digits.  Because the pattern is
bracketed by word boundaries and its alphabet is word characters, a match is
exactly a maximal word token of this shape. -/
def gfxTokenB (token : List Char) : Bool :=
  match token with
  | 'g' :: 'f' :: 'x' :: d :: rest => d.isDigit && rest.all isLowerHex
  | _ => false

/-- findall of _GFX_REGEX over a text: every maximal word token matching the
pattern, in order of occurrence. -/
def gfxFindall (l : List Char) : List String :=
  ((wordTokens l).filter gfxTokenB).map String.mk

/-! ### Data model of detect_rocm.py -/

/-- Decidable equality of `Except` results, so that concrete runs of the
embedded functions can be checked by evaluation. -/
instance {ε α : Type} [DecidableEq ε] [DecidableEq α] : DecidableEq (Except ε α) :=
  fun x y =>
    match x, y with
    | Except.ok a, Except.ok b =>
      if h : a = b then isTrue (congrArg Except.ok h)
      else isFalse (fun hc => h (Except.ok.inj hc))
    | Except.error e, Except.error f =>
      if h : e = f then isTrue (congrArg Except.error h)
      else isFalse (fun hc => h (Except.error.inj hc))
    | Except.ok _, Except.error _ => isFalse (fun hc => Except.noConfusion hc)
    | Except.error _, Except.ok _ => isFalse (fun hc => Except.noConfusion hc)

/-- Python exception classes that escape the embedded functions. -/
inductive PyErr
  | nameError
  | valueError
  | typeError
  | reError
deriving DecidableEq

/-- ROCmVersion dataclass (user-mode runtime version), fields defaulting
to 0. -/
structure ROCmVersion where
  major : Int := 0
  minor : Int := 0
  patch : Int := 0
deriving DecidableEq

/-- KMDVersion dataclass (kernel-mode driver version), fields defaulting
to 0. -/
structure KMDVersion where
  major : Int := 0
  minor : Int := 0
  patch : Int := 0
deriving DecidableEq

/-- Observable state of the host as seen by the probe strategies.  Fields
whose value is an `Option String` are `none` when the corresponding file is
missing/unreadable or the corresponding subprocess raises
FileNotFoundError / CalledProcessError / TimeoutExpired, and `some text`
when the read or run succeeds with that text. -/
structure Env where
  /-- platform.system() = "Linux". -/
  isLinux : Bool := false
  /-- shutil.which("rocminfo") finds the executable. -/
  rocminfoOnPath : Bool := false
  /-- stdout of a successful rocminfo run. -/
  rocminfoOutput : Option String := none
  /-- shutil.which("rocm_agent_enumerator") finds the executable. -/
  agentOnPath : Bool := false
  /-- stdout of a successful rocm_agent_enumerator -name run. -/
  agentOutput : Option String := none
  /-- content of /sys/module/amdgpu/version. -/
  sysfsVersion : Option String := none
  /-- stdout of a successful modinfo amdgpu run. -/
  modinfoOutput : Option String := none
  /-- environment variable AMD_PREFERRED_GFX_ARCHS. -/
  preferredGfxEnv : Option String := none
  /-- content of the version marker file <rocm path>/.info/version (the
  path resolution argument / ROCM_PATH / /opt/rocm is collapsed into the
  resulting file content). -/
  rocmDirVersion : Option String := none
deriving DecidableEq

/-- Partial record built by _get_info_from_rocminfo (a dict in the source;
a field is `some` exactly when the corresponding key was inserted). -/
structure RocmInfo where
  rocm : Option ROCmVersion := none
  kmd : Option KMDVersion := none
  gfx : Option (List String) := none
deriving DecidableEq

/-! ### Probe strategies of detect_rocm.py -/

/-- Default GFX_CODE list in _get_info_from_rocminfo. -/
def defaultGfxCode : List String :=
  ["gfx900", "gfx906", "gfx908", "gfx90a", "gfx942", "gfx1030",
   "gfx1100", "gfx1101", "gfx1102", "gfx1200", "gfx1201"]

/-- Effective allow-list: AMD_PREFERRED_GFX_ARCHS split on commas, stripped,
empties dropped; the built-in default list when that yields nothing. -/
def effectiveGfxCode (envPreferred : Option String) : List String :=
  let raw := match envPreferred with | none => "" | some s => s
  let parsed := ((splitChars (fun c => c = ',') raw.data).map
      (fun g => String.mk (pyStripL g))).filter (fun g => decide (g ≠ ""))
  if parsed = [] then defaultGfxCode else parsed

/-- KMD-version part of the single-pass rocminfo parse. -/
def rocminfoKmd (out : String) : Option KMDVersion :=
  (kmdSearch out.data).map (fun t => ⟨t.1, t.2.1, t.2.2⟩)

/-- GFX part of the single-pass rocminfo parse: the key is inserted only when
at least one token matched and every deduplicated, sorted token lies in the
effective allow-list (the check in the source is all-or-nothing). -/
def rocminfoGfx (code : List String) (out : String) : Option (List String) :=
  if gfxFindall out.data = [] then none
  else if (sortedDedup (gfxFindall out.data)).all (fun g => decide (g ∈ code)) then
    some (sortedDedup (gfxFindall out.data))
  else none

/-- _get_info_from_rocminfo.  Returns the partial record plus whether the
rocminfo subprocess was attempted.  The function short-circuits to an empty
record off Linux and when rocminfo is not on the PATH; a raising subprocess is
caught and the record built so far (still empty) is returned.  Note that the
compiled _ROCM_VERSION_REGEX is never consulted, so the rocm field is never
inserted. -/
def get_info_from_rocminfo (env : Env) : RocmInfo × Bool :=
  if env.isLinux = false then (⟨none, none, none⟩, false)
  else if env.rocminfoOnPath = false then (⟨none, none, none⟩, false)
  else
    match env.rocminfoOutput with
    | none => (⟨none, none, none⟩, true)
    | some out =>
      (⟨none, rocminfoKmd out, rocminfoGfx (effectiveGfxCode env.preferredGfxEnv) out⟩, true)

/-- One line of _get_gfx_from_agent_enumerator's loop: first _GFX_REGEX match
of the line, lowercased, with the CPU pseudo-agent gfx000 filtered out. -/
def agent_line_token (line : List Char) : Option String :=
  match (wordTokens line).find? gfxTokenB with
  | none => none
  | some tok =>
    let t := String.mk (tok.map Char.toLower)
    if t = "gfx000" then none else some t

/-- _get_gfx_from_agent_enumerator.  Returns the sorted deduplicated token
list plus whether the subprocess was attempted.  There is no platform gate:
the only guard is shutil.which, and no allow-list check is performed on the
tokens. -/
def get_gfx_from_agent_enumerator (env : Env) : List String × Bool :=
  if env.agentOnPath = false then ([], false)
  else
    match env.agentOutput with
    | none => ([], true)
    | some out =>
      (sortedDedup ((pySplitlines out.data).filterMap agent_line_token), true)

/-- Strategy 1 of _get_amdgpu_kmd_version: KMDVersion(*map(int, s.split ("."))).
A non-numeric part raises ValueError (the surrounding except clause catches
only IOError/OSError), and more than three parts raise TypeError from the
dataclass constructor arity. -/
def parse_sysfs_kmd (s : List Char) : Except PyErr KMDVersion :=
  match (splitChars (fun c => c = '.') s).mapM parsePyIntL with
  | none => Except.error PyErr.valueError
  | some ns =>
    match ns with
    | [] => Except.ok ⟨0, 0, 0⟩
    | [a] => Except.ok ⟨a, 0, 0⟩
    | [a, b] => Except.ok ⟨a, b, 0⟩
    | [a, b, c] => Except.ok ⟨a, b, c⟩
    | _ => Except.error PyErr.typeError

/-- Strategy 2 of _get_amdgpu_kmd_version.  The regex literal
"^version:\s*(\d+)\.(\d+).(\d+))" contains an unbalanced closing parenthesis,
so re.search raises re.error whenever modinfo output is actually parsed; the
except clause around it catches only FileNotFoundError / CalledProcessError /
TimeoutExpired.  The Bool records that the subprocess was attempted. -/
def kmd_modinfo_step (env : Env) : Except PyErr (Option KMDVersion) × Bool :=
  match env.modinfoOutput with
  | none => (Except.ok none, true)
  | some _ => (Except.error PyErr.reError, true)

/-- _get_amdgpu_kmd_version: sysfs read first (no subprocess), then the
modinfo fallback.  The sysfs strategy falls through to modinfo when the file
is missing/unreadable or its stripped content is empty; a malformed non-empty
content raises past the function boundary. -/
def get_amdgpu_kmd_version (env : Env) : Except PyErr (Option KMDVersion) × Bool :=
  match env.sysfsVersion with
  | none => kmd_modinfo_step env
  | some content =>
    let s := pyStripL content.data
    if s = [] then kmd_modinfo_step env
    else
      match parse_sysfs_kmd s with
      | Except.ok v => (Except.ok (some v), false)
      | Except.error e => (Except.error e, false)

/-- _get_rocm_version_from_dir, collapsed over path resolution to the content
of the resolved version marker file: strip, split on dots and hyphens, then a
three-part or two-part numeric parse; int() failures (ValueError) are caught
by the surrounding except clause and yield None. -/
def get_rocm_version_from_dir (fileContent : Option String) : Option ROCmVersion :=
  match fileContent with
  | none => none
  | some content =>
    match splitChars (fun c => c = '.' || c = '-') (pyStripL content.data) with
    | p0 :: p1 :: p2 :: _ =>
      (match parsePyIntL p0, parsePyIntL p1, parsePyIntL p2 with
       | some a, some b, some c => some ⟨a, b, c⟩
       | _, _, _ => none)
    | [p0, p1] =>
      (match parsePyIntL p0, parsePyIntL p1 with
       | some a, some b => some ⟨a, b, 0⟩
       | _, _ => none)
    | _ => none

/-! ### The orchestrator get_system_info -/

/-- Consolidated dictionary returned by get_system_info.  The rocm and gfx
fields are `some` exactly when their key is present; the kmd field
distinguishes key presence (outer `Option`) from the stored value, because
the source assigns the key even when the strategy returns None. -/
structure SysInfo where
  rocm : Option ROCmVersion := none
  gfx : Option (List String) := none
  kmd : Option (Option KMDVersion) := none
deriving DecidableEq

/-- Truthiness of the dict in `if not info:` — a dict is falsy exactly when it
has no keys at all (a key mapped to None still counts). -/
def SysInfo.isEmptyDict (i : SysInfo) : Bool :=
  i.rocm.isNone && i.gfx.isNone && i.kmd.isNone

/-- ROCm-version merge step of get_system_info: the rocminfo value if its key
is present, else the version-marker-file fallback (key inserted only when the
fallback found a value). -/
def merged_rocm (env : Env) : Option ROCmVersion :=
  match ((get_info_from_rocminfo env).1).rocm with
  | some v => some v
  | none => get_rocm_version_from_dir env.rocmDirVersion

/-- GFX merge step of get_system_info: the rocminfo value if its key is
present, else the agent-enumerator fallback (key inserted only when the
fallback list is non-empty). -/
def merged_gfx (env : Env) : Option (List String) :=
  match ((get_info_from_rocminfo env).1).gfx with
  | some l => some l
  | none =>
    if (get_gfx_from_agent_enumerator env).1 = [] then none
    else some (get_gfx_from_agent_enumerator env).1

/-- get_system_info (one un-cached detection round): rocminfo first, then the
per-field fallbacks; the kmd_version key is assigned unconditionally when the
rocminfo parse did not set it, taking whatever _get_amdgpu_kmd_version
returns — including None — and propagating its uncaught exceptions. -/
def get_system_info (env : Env) : Except PyErr SysInfo :=
  match ((get_info_from_rocminfo env).1).kmd with
  | some v => Except.ok ⟨merged_rocm env, merged_gfx env, some (some v)⟩
  | none =>
    match (get_amdgpu_kmd_version env).1 with
    | Except.ok r => Except.ok ⟨merged_rocm env, merged_gfx env, some r⟩
    | Except.error e => Except.error e

/-- Number of subprocess invocations one full detection round performs: the
fallback strategies only run when the corresponding key is still absent,
mirroring the guards in get_system_info. -/
def detect_invocations (env : Env) : Nat :=
  (if (get_info_from_rocminfo env).2 then 1 else 0) +
    (if ((get_info_from_rocminfo env).1).gfx.isNone
        && (get_gfx_from_agent_enumerator env).2 then 1 else 0) +
    (if ((get_info_from_rocminfo env).1).kmd.isNone
        && (get_amdgpu_kmd_version env).2 then 1 else 0)

/-- functools.lru_cache(maxsize=1) on get_system_info, modelled by explicit
state passing: the cache slot holds a previously returned dictionary (like
lru_cache, a raised exception is not cached).  The Nat component counts
the subprocess invocations performed by this call. -/
def get_system_info_cached (env : Env) :
    Option SysInfo → Except PyErr SysInfo × Option SysInfo × Nat
  | some r => (Except.ok r, some r, 0)
  | none =>
    match get_system_info env with
    | Except.ok r => (Except.ok r, some r, detect_invocations env)
    | Except.error e => (Except.error e, none, detect_invocations env)

/-! ### plugin.py -/

/-- VariantFeatureConfig dataclass: a feature name with its acceptable values
in priority order. -/
structure VariantFeatureConfig where
  name : String
  values : List String
deriving DecidableEq

/-- Runtime-typed value stored in the detection dictionary (the plugin reads
it back with dict.get, whose static type is Any). -/
inductive InfoValue
  | rocmV : ROCmVersion → InfoValue
  | kmdV : Option KMDVersion → InfoValue
  | gfxL : List String → InfoValue
deriving DecidableEq

/-- dict.get on the detection dictionary.  The keys present are exactly
"rocm_version" and "gfx_archs" (when detected) and "kmd_version"
(when assigned); any other key — in particular the "gfx_names" key the
plugin asks for — yields None. -/
def SysInfo.get (i : SysInfo) (key : String) : Option InfoValue :=
  if key = "rocm_version" then i.rocm.map InfoValue.rocmV
  else if key = "gfx_archs" then i.gfx.map InfoValue.gfxL
  else if key = "kmd_version" then i.kmd.map InfoValue.kmdV
  else none

/-- Python truthiness of a detection-dictionary value: a dataclass instance is
always truthy, None is falsy, a list is truthy when non-empty. -/
def infoValueTruthy : InfoValue → Bool
  | InfoValue.rocmV _ => true
  | InfoValue.kmdV v => v.isSome
  | InfoValue.gfxL l => decide (l ≠ [])

/-- List payload of a dictionary value (what VariantFeatureConfig.values
receives in the architecture branch). -/
def infoValueList : InfoValue → List String
  | InfoValue.gfxL l => l
  | _ => []

/-- Python truthiness of os.environ.get's result: None and the empty string
are falsy. -/
def optStrTruthy : Option String → Bool
  | none => false
  | some s => decide (s ≠ "")

/-- Runtime type of the local variable rocm_version in get_supported_configs:
None, a string (from the environment override), or a detection-dictionary
value (a ROCmVersion dataclass in practice). -/
inductive PyVal
  | vNone
  | vStr : String → PyVal
  | vInfo : InfoValue → PyVal
deriving DecidableEq

/-- Python truthiness of that variable. -/
def pyValTruthy : PyVal → Bool
  | PyVal.vNone => false
  | PyVal.vStr s => decide (s ≠ "")
  | PyVal.vInfo iv => infoValueTruthy iv

/-- Lift os.environ.get's result into the variable. -/
def env_str_val : Option String → PyVal
  | none => PyVal.vNone
  | some s => PyVal.vStr s

/-- AMDVariantPlugin._parse_list_env.  The body's first statement tests the
undefined name envval (the parameter is env_val), so every call raises
NameError before any splitting happens. -/
def parse_list_env (_envVal : Option String) : Except PyErr (List String) :=
  Except.error PyErr.nameError

/-- Value of rocm_version after lines 116-119 of plugin.py: the
AMD_VARIANT_PROVIDER_ROCM_VERSION string when truthy, else the detection
dictionary entry under "rocm_version". -/
def rocm_version_var (envRocm : Option String) (info : SysInfo) : PyVal :=
  if pyValTruthy (env_str_val envRocm) then env_str_val envRocm
  else
    match SysInfo.get info ("rocm_version") with
    | none => PyVal.vNone
    | some iv => PyVal.vInfo iv

/-- Architecture block of get_supported_configs (lines 101-113): the plugin
looks up the key "gfx_names", which the detection engine never writes (it
stores architectures under "gfx_archs"). -/
def gfx_configs (info : SysInfo) : List VariantFeatureConfig :=
  match SysInfo.get info ("gfx_names") with
  | some iv =>
    if infoValueTruthy iv then [⟨"gfx_arch", infoValueList iv⟩] else []
  | none => []

/-- ROCm block of get_supported_configs (lines 116-129): when the variable is
truthy, a str is emitted verbatim; the isinstance tuple branch is dead (the
detection engine stores ROCmVersion dataclasses, never tuples), and a
dataclass matches neither isinstance check, so nothing is appended for it. -/
def rocm_configs (envRocm : Option String) (info : SysInfo) : List VariantFeatureConfig :=
  if pyValTruthy (rocm_version_var envRocm info) then
    match rocm_version_var envRocm info with
    | PyVal.vStr s => [⟨"rocm_version", [s]⟩]
    | _ => []
  else []

/-- AMDVariantPlugin.get_supported_configs as a function of the two
environment overrides and the (cached) detection dictionary.  When
AMD_VARIANT_PROVIDER_GFX_ARCH is truthy the method executes
`gfx_names = _parse_list_env(env_gfx)`; the unqualified name _parse_list_env
is not in scope inside the method body (it is a staticmethod attribute), so
NameError is raised — and the staticmethod body itself would raise NameError
on the undefined name envval as well. -/
def get_supported_configs (envGfx envRocm : Option String) (info : SysInfo) :
    Except PyErr (List VariantFeatureConfig) :=
  if optStrTruthy envGfx then Except.error PyErr.nameError
  else Except.ok (gfx_configs info ++ rocm_configs envRocm info)

/-! ### Concrete environments used by the theorems -/

/-- Host of concrete scenario A: rocminfo present and reporting
"ROCk module version 6.10.5", gfx90a twice and gfx1100 once. -/
def envScenarioA : Env :=
  { isLinux := true, rocminfoOnPath := true,
    rocminfoOutput := some ("ROCk module version 6.10.5\nName: gfx90a\nName: gfx90a\nName: gfx1100\n") }

/-- Host where rocminfo is absent, the agent enumerator reports a token
outside the allow-list, and the sysfs driver version is well-formed. -/
def envAgentRogue : Env :=
  { isLinux := true, agentOnPath := true, agentOutput := some ("gfx999\n"),
    sysfsVersion := some ("1.2.3") }

/-- Non-Linux host on which the agent enumerator and modinfo are both
reachable. -/
def envNonLinux : Env :=
  { isLinux := false, rocminfoOnPath := true,
    rocminfoOutput := some ("ROCk module version 6.10.5\n"),
    agentOnPath := true, agentOutput := some ("gfx90a\n") }

/-- Host whose sysfs driver-version file holds a non-numeric string. -/
def envSysfsGarbage : Env := { sysfsVersion := some ("garbage") }

/-- Host with no sysfs file and a modinfo command that succeeds. -/
def envModinfoUp : Env :=
  { modinfoOutput := some ("version:         6.8.5\n") }

/-- Host where only the sysfs driver-version probe yields data. -/
def envMemo : Env := { sysfsVersion := some ("1.2.3") }

/-- Host with no sysfs file whose modinfo command succeeds: every detection
round ends in the uncaught re.error of the kmd strategy. -/
def envRaising : Env := { modinfoOutput := some ("version: 6.8.0\n") }

/-- Host where rocminfo reports a single allow-listed architecture. -/
def envC3w : Env :=
  { isLinux := true, rocminfoOnPath := true,
    rocminfoOutput := some ("Name: gfx90a\n") }

/-! ### Helper lemmas -/

/-- Lookup of the key "gfx_names" in the detection dictionary always yields
None: the detection engine only ever writes "rocm_version", "gfx_archs" and
"kmd_version". -/
theorem sysinfo_get_gfx_names (i : SysInfo) : SysInfo.get i ("gfx_names") = none := rfl

/-- Every token in an architecture list produced by the rocminfo parse lies in
the allow-list it was checked against. -/
theorem rocminfoGfx_mem (code : List String) (out : String) (l : List String) (x : String)
    (hl : rocminfoGfx code out = some l) (hx : x ∈ l) : x ∈ code := by
  unfold rocminfoGfx at hl
  split at hl
  · simp at hl
  · split at hl
    · rename_i hall
      injection hl with hl
      subst hl
      exact of_decide_eq_true (List.all_eq_true.mp hall x hx)
    · simp at hl

/-! ### Claim theorems -/

/-- Claim C1 (code bug evaluated): with a non-empty forced architecture list
in AMD_VARIANT_PROVIDER_GFX_ARCH, get_supported_configs raises NameError
instead of returning the normalized override list — even with a detected
architecture present. -/
theorem gfx_override_raises_name_error :
    get_supported_configs (some ("gfx90a,gfx1100")) none ⟨none, some ["gfx942"], some none⟩ =
      Except.error PyErr.nameError := by decide

/-- Claim C2 (code bug evaluated): the detection dictionary stores the
detected architectures under "gfx_archs", but get_supported_configs looks up
"gfx_names", so with no override set and a detected architecture list the
method emits no architecture feature at all. -/
theorem detected_archs_never_reported :
    SysInfo.get ⟨none, some ["gfx90a"], some none⟩ ("gfx_archs")
        = some (InfoValue.gfxL ["gfx90a"]) ∧
      get_supported_configs none none ⟨none, some ["gfx90a"], some none⟩ = Except.ok [] :=
  ⟨rfl, by decide⟩

/-- Claim C3 counterexample: on a host where rocminfo is absent and the agent
enumerator reports "gfx999", get_system_info surfaces the token "gfx999" in
the architectures field although it is not in the effective allow-list. -/
theorem agent_arch_bypasses_allowlist :
    get_system_info envAgentRogue =
        Except.ok ⟨none, some ["gfx999"], some (some ⟨1, 2, 3⟩)⟩ ∧
      "gfx999" ∉ effectiveGfxCode envAgentRogue.preferredGfxEnv :=
  ⟨by decide, by decide⟩

/-- Claim C3 amended: only the primary rocminfo strategy validates
architecture tokens against the effective allow-list (all-or-nothing); every
token of an architecture list it produces lies in that allow-list.  The
agent-enumerator fallback performs no such validation. -/
theorem rocminfo_gfx_subset_allowlist (env : Env) (l : List String) (x : String)
    (hl : ((get_info_from_rocminfo env).1).gfx = some l) (hx : x ∈ l) :
    x ∈ effectiveGfxCode env.preferredGfxEnv := by
  unfold get_info_from_rocminfo at hl
  split at hl
  · simp at hl
  · split at hl
    · simp at hl
    · split at hl
      · simp at hl
      · exact rocminfoGfx_mem _ _ _ _ hl hx

/-- Claim C3 amended, witness: a concrete rocminfo run whose reported token
list is allow-listed. -/
theorem rocminfo_gfx_subset_allowlist_witness :
    "gfx90a" ∈ effectiveGfxCode envC3w.preferredGfxEnv :=
  rocminfo_gfx_subset_allowlist envC3w ["gfx90a"] ("gfx90a") (by decide) (by decide)

/-- Claim C4 (code bug evaluated): the driver-version strategy raises instead
of returning None on malformed data — ValueError escapes when the sysfs file
content is non-numeric (the except clause catches only IOError/OSError), and
re.error escapes whenever modinfo output is parsed, because the regex literal
itself is malformed (unbalanced parenthesis). -/
theorem kmd_strategy_raises_on_malformed :
    get_amdgpu_kmd_version envSysfsGarbage = (Except.error PyErr.valueError, false) ∧
      get_amdgpu_kmd_version envModinfoUp = (Except.error PyErr.reError, true) :=
  ⟨by decide, by decide⟩

/-- Claim C5 counterexample: the malformed runtime-version override "7.0" is
not rejected: get_supported_configs returns normally and emits the malformed
value verbatim, and does not fall back to the detected ROCm version 6.4.1. -/
theorem malformed_override_no_error :
    get_supported_configs none (some ("7.0")) ⟨some ⟨6, 4, 1⟩, none, some none⟩ =
      Except.ok [⟨"rocm_version", ["7.0"]⟩] := by decide

/-- Claim C5 amended: any non-empty runtime-version override string — well
formed or not — is emitted verbatim as the sole rocm_version feature value,
with no validation error and no fallback to the detected value. -/
theorem malformed_override_emitted_verbatim (s : String) (hs : s ≠ "") (info : SysInfo) :
    get_supported_configs none (some s) info = Except.ok [⟨"rocm_version", [s]⟩] := by
  have hg : gfx_configs info = [] := rfl
  have hr : rocm_configs (some s) info = [⟨"rocm_version", [s]⟩] := by
    unfold rocm_configs rocm_version_var env_str_val
    simp [pyValTruthy, hs]
  simp [get_supported_configs, optStrTruthy, hg, hr]

/-- Claim C5 amended, witness at the override "7.0" of concrete scenario D. -/
theorem malformed_override_emitted_verbatim_witness :
    get_supported_configs none (some ("7.0")) ⟨none, none, none⟩ =
      Except.ok [⟨"rocm_version", ["7.0"]⟩] :=
  malformed_override_emitted_verbatim ("7.0") (by decide) ⟨none, none, none⟩

/-- Claim C6 counterexample: get_system_info is not memoized on every host.
On the reachable host where the sysfs file is absent and modinfo succeeds,
every detection round raises re.error, lru_cache caches nothing (its slot
stays empty), and each of two sequential calls performs one subprocess
invocation — two rounds per process, not at most one. -/
theorem detection_not_memoized_on_raising_host :
    get_system_info_cached envRaising none =
        (Except.error PyErr.reError, none, 1) ∧
      get_system_info_cached envRaising ((get_system_info_cached envRaising none).2.1) =
        (Except.error PyErr.reError, none, 1) :=
  ⟨by decide, by decide⟩

/-- Claim C6 amended: get_system_info is memoized for calls that return —
when a first call returns a dictionary (empty or not), a second sequential
call returns the same dictionary and performs zero further subprocess
invocations; a raising first call (reachable through the kmd-strategy bug)
caches nothing. -/
theorem detection_memoized (env : Env) (r : SysInfo)
    (h : get_system_info env = Except.ok r) :
    (get_system_info_cached env none).1 = Except.ok r ∧
      get_system_info_cached env ((get_system_info_cached env none).2.1) =
        (Except.ok r, some r, 0) := by
  simp [get_system_info_cached, h]

/-- Claim C6 witness: concrete host where only the sysfs probe yields data. -/
theorem detection_memoized_witness :
    (get_system_info_cached envMemo none).1 =
        Except.ok (⟨none, none, some (some ⟨1, 2, 3⟩)⟩ : SysInfo) ∧
      get_system_info_cached envMemo ((get_system_info_cached envMemo none).2.1) =
        (Except.ok (⟨none, none, some (some ⟨1, 2, 3⟩)⟩ : SysInfo),
          some (⟨none, none, some (some ⟨1, 2, 3⟩)⟩ : SysInfo), 0) :=
  detection_memoized envMemo ⟨none, none, some (some ⟨1, 2, 3⟩)⟩ (by decide)

/-- Claim C7 counterexample: on a non-Linux host the agent-enumerator and
modinfo strategies still attempt their subprocess invocations (and the agent
enumerator even returns data); only rocminfo is platform-gated. -/
theorem non_linux_strategies_still_invoke :
    envNonLinux.isLinux = false ∧
      get_gfx_from_agent_enumerator envNonLinux = (["gfx90a"], true) ∧
      (get_amdgpu_kmd_version envNonLinux).2 = true :=
  ⟨rfl, by decide, by decide⟩

/-- Claim C7 amended: only the primary diagnostic strategy
(_get_info_from_rocminfo) short-circuits to no data on a non-Linux host
without attempting its subprocess. -/
theorem rocminfo_gated_on_platform (env : Env) (h : env.isLinux = false) :
    get_info_from_rocminfo env = (⟨none, none, none⟩, false) := by
  unfold get_info_from_rocminfo
  rw [if_pos h]

/-- Claim C7 amended, witness on the concrete non-Linux host. -/
theorem rocminfo_gated_on_platform_witness :
    get_info_from_rocminfo envNonLinux = (⟨none, none, none⟩, false) :=
  rocminfo_gated_on_platform envNonLinux rfl

/-- Claim C8 (code bug evaluated): although _ROCM_VERSION_REGEX matches the
labeled line "ROCm Version: 5.7" (yielding major 5 and minor 7), the rocminfo
single-pass parse never consults it: the rocm_version key is never inserted
by _get_info_from_rocminfo, on any input. -/
theorem rocm_version_never_extracted :
    rocmVersionSearch ("ROCm Version: 5.7").data = some (5, 7) ∧
      ∀ env : Env, ((get_info_from_rocminfo env).1).rocm = none := by
  refine ⟨by decide, fun env => ?_⟩
  unfold get_info_from_rocminfo
  split
  · rfl
  · split
    · rfl
    · split <;> rfl

/-- Claim C9: on the scenario-A rocminfo output ("ROCk module version
6.10.5", gfx90a twice, gfx1100 once) detection yields driver version (6,10,5)
and the deduplicated, lexicographically sorted architectures
["gfx1100", "gfx90a"]. -/
theorem scenario_a_detection :
    get_system_info envScenarioA =
      Except.ok ⟨none, some ["gfx1100", "gfx90a"], some (some ⟨6, 10, 5⟩)⟩ := by decide

/-- Claim C10: every dictionary returned by get_system_info carries the
kmd_version key (possibly mapped to None), so the returned mapping is never
empty and the empty-result warning branch cannot fire. -/
theorem kmd_key_always_present (env : Env) (i : SysInfo)
    (h : get_system_info env = Except.ok i) :
    i.kmd.isSome = true ∧ SysInfo.isEmptyDict i = false := by
  unfold get_system_info at h
  split at h
  · injection h with h
    subst h
    simp [SysInfo.isEmptyDict]
  · split at h
    · injection h with h
      subst h
      simp [SysInfo.isEmptyDict]
    · exact Except.noConfusion h

/-- Claim C10 witness on the concrete host of envMemo. -/
theorem kmd_key_always_present_witness :
    ((⟨none, none, some (some ⟨1, 2, 3⟩)⟩ : SysInfo)).kmd.isSome = true ∧
      SysInfo.isEmptyDict ⟨none, none, some (some ⟨1, 2, 3⟩)⟩ = false :=
  kmd_key_always_present envMemo ⟨none, none, some (some ⟨1, 2, 3⟩)⟩ (by decide)

end AmdVariantProvider
